import Mathlib

/-!
Shallow embedding of the vblank scheduling subsystem (`src/vblank.h`,
header and implementation) of the picom compositor.

Machine integers (`uint64_t` fields `msc`, `ust`, `last_msc`, `last_ust`,
and the microsecond clock value) are modelled as `Nat`; the only arithmetic
the code performs on them where overflow is possible is `last_msc + 1`,
which is computed modulo `2 ^ 64` as the C `uint64_t` addition does.
Comparisons of in-range values coincide with `Nat` comparisons.  The
subtraction `cne->ust - now_us` only happens on the branch where
`now_us <= cne->ust`, so it never wraps and `Nat` subtraction is exact.

Side effects are made explicit: a call to the consumer callback becomes an
element of a `callbacks` list, a call to `x_request_vblank_event` becomes an
element of a `requests` list, and the libev one-shot timer
(`ev_timer_set` / `ev_timer_start` / `ev_is_active`) becomes an
`Option Nat` field holding the armed delay in microseconds (`none` =
inactive).  C `assert` failures are modelled as `Except.error` results.
-/

/-- `uint64_t` wraps at `2 ^ 64`. -/
def u64_size : Nat := 2 ^ 64

/-- `XCB_PRESENT_COMPLETE_KIND_NOTIFY_MSC` from the Present protocol
(`PresentCompleteKindNotifyMSC = 1`). -/
def XCB_PRESENT_COMPLETE_KIND_NOTIFY_MSC : Nat := 1

/-- `struct vblank_event { uint64_t msc; uint64_t ust; }`. -/
structure vblank_event where
  msc : Nat
  ust : Nat
deriving DecidableEq, Repr

/-- The fields of `xcb_present_complete_notify_event_t` that the handler
reads: `kind`, `msc`, `ust`, `window`. -/
structure xcb_present_complete_notify_event where
  kind : Nat
  msc : Nat
  ust : Nat
  window : Nat
deriving DecidableEq, Repr

/-- One call to `x_request_vblank_event(c, window, target_msc)`. -/
structure vblank_request where
  window : Nat
  target_msc : Nat
deriving DecidableEq, Repr

/-- `struct present_vblank_scheduler` (the `base` callback/user-data pair is
modelled effect-wise by the `callbacks` output lists; `callback_timer` is the
libev one-shot timer, `some d` meaning armed with delay `d` microseconds). -/
structure present_vblank_scheduler where
  last_msc : Nat
  last_ust : Nat
  callback_timer : Option Nat
  vblank_event_requested : Bool
deriving DecidableEq, Repr

/-- `struct vblank_scheduler` with its `enum vblank_scheduler_type` tag,
modelled as a closed sum: `PRESENT_VBLANK_SCHEDULER` carries the present
state, `SGI_VIDEO_VSYNC_VBLANK_SCHEDULER` has no state. -/
inductive vblank_scheduler where
  | present (sched : present_vblank_scheduler)
  | sgi_video_vsync
deriving DecidableEq, Repr

/-- The three `assert`s in the implementation, used as `Except` errors. -/
inductive assert_kind where
  | scheduler_type
  | event_requested
  | timer_active
deriving DecidableEq, Repr

/-- The state and effects produced by one call into the module:
synchronous consumer-callback invocations (in order) and
`x_request_vblank_event` calls (in order). -/
structure handle_output where
  sched : present_vblank_scheduler
  callbacks : List vblank_event
  requests : List vblank_request
deriving DecidableEq, Repr

/-- `present_vblank_scheduler_new`: `ccalloc` zero-initializes `last_msc`,
`last_ust` and `vblank_event_requested`; `ev_timer_init` leaves the timer
inactive. -/
def present_vblank_scheduler_new : present_vblank_scheduler :=
  { last_msc := 0, last_ust := 0, callback_timer := none,
    vblank_event_requested := false }

/-- `vblank_scheduler_new` returns the present-based scheduler. -/
def vblank_scheduler_new : vblank_scheduler :=
  .present present_vblank_scheduler_new

/-- `present_vblank_callback`: expiry of the one-shot timer fires the
consumer callback with the scheduler's current `last_msc`/`last_ust`
(the code reads them from the struct at expiry time); the non-repeating
libev timer is inactive afterwards. -/
def present_vblank_callback (sched : present_vblank_scheduler) :
    present_vblank_scheduler × List vblank_event :=
  ({ sched with callback_timer := none },
   [{ msc := sched.last_msc, ust := sched.last_ust }])

/-- `present_vblank_scheduler_schedule`: unconditionally calls
`x_request_vblank_event(c, window, sched->last_msc + 1)` (uint64 addition)
and returns `true`. -/
def present_vblank_scheduler_schedule (sched : present_vblank_scheduler)
    (window : Nat) : Bool × List vblank_request :=
  (true, [{ window := window, target_msc := (sched.last_msc + 1) % u64_size }])

/-- `vblank_scheduler_schedule`: dispatch on the type tag; the
`SGI_VIDEO_VSYNC_VBLANK_SCHEDULER` case returns `false` (and the match is
exhaustive, so the `default: assert(false)` branch is unreachable). -/
def vblank_scheduler_schedule (sched : vblank_scheduler) (window : Nat) :
    Bool × List vblank_request :=
  match sched with
  | .present s => present_vblank_scheduler_schedule s window
  | .sgi_video_vsync => (false, [])

/-- `handle_present_complete_notify`.  `now_us` is the value
`now.tv_sec * 1000000UL + now.tv_nsec / 1000` read from
`clock_gettime(CLOCK_MONOTONIC)` inside the handler. -/
def handle_present_complete_notify (self : vblank_scheduler)
    (cne : xcb_present_complete_notify_event) (now_us : Nat) :
    Except assert_kind handle_output :=
  match self with
  | .sgi_video_vsync => .error .scheduler_type
  | .present sched =>
    if cne.kind ≠ XCB_PRESENT_COMPLETE_KIND_NOTIFY_MSC then
      .ok { sched := sched, callbacks := [], requests := [] }
    else if sched.vblank_event_requested = false then
      .error .event_requested
    else if cne.msc ≤ sched.last_msc ∨ cne.ust = 0 then
      .ok { sched := sched, callbacks := [],
            requests := [{ window := cne.window,
                           target_msc := (sched.last_msc + 1) % u64_size }] }
    else
      let sched' : present_vblank_scheduler :=
        { sched with vblank_event_requested := false,
                     last_ust := cne.ust, last_msc := cne.msc }
      if now_us > cne.ust then
        .ok { sched := sched', callbacks := [{ msc := cne.msc, ust := cne.ust }],
              requests := [] }
      else if sched'.callback_timer.isSome then
        .error .timer_active
      else
        .ok { sched := { sched' with callback_timer := some (cne.ust - now_us) },
              callbacks := [], requests := [] }

/-!
Trace semantics: the operations that can touch one present-based scheduler
instance, driven by the single event-loop thread with run-to-completion
semantics (spec section 5).  `ext_request` is the only action not found in
`src/vblank.h`.
-/

/-- One operation on a present-based scheduler instance.

`ext_request` is modelled from the spec: `vblank_event_requested` "tracks
whether a request is believed outstanding", is asserted true by the
notification handler, yet no code in `src/vblank.h` ever assigns it `true`;
the code that sets it lives outside this module (in the owner that issues
the outstanding request).  The action sets the flag to `true` and changes
nothing else. -/
inductive sched_action where
  | ext_request
  | schedule (window : Nat)
  | notify (cne : xcb_present_complete_notify_event) (now_us : Nat)
  | timer_fire
deriving DecidableEq, Repr

/-- One step of the trace semantics.  `schedule` goes through
`vblank_scheduler_schedule` (which does not modify the state); `notify`
goes through `handle_present_complete_notify`; `timer_fire` is the libev
loop delivering the expiry of an armed timer to `present_vblank_callback`
(an inactive timer never fires, so the step is a no-op then). -/
def sched_step (s : present_vblank_scheduler) (a : sched_action) :
    Except assert_kind handle_output :=
  match a with
  | .ext_request =>
      .ok { sched := { s with vblank_event_requested := true },
            callbacks := [], requests := [] }
  | .schedule window =>
      .ok { sched := s, callbacks := [],
            requests := (vblank_scheduler_schedule (.present s) window).2 }
  | .notify cne now_us =>
      handle_present_complete_notify (.present s) cne now_us
  | .timer_fire =>
      match s.callback_timer with
      | none => .ok { sched := s, callbacks := [], requests := [] }
      | some _ =>
          .ok { sched := (present_vblank_callback s).1,
                callbacks := (present_vblank_callback s).2, requests := [] }

/-- Whether the handler accepts (as opposed to ignores or rejects) a
notification in state `s`: right kind, fresh `msc`, nonzero `ust`
(the negation of `event_is_invalid`). -/
def event_accepted (s : present_vblank_scheduler)
    (cne : xcb_present_complete_notify_event) : Bool :=
  decide (cne.kind = XCB_PRESENT_COMPLETE_KIND_NOTIFY_MSC) &&
  decide (s.last_msc < cne.msc) && decide (cne.ust ≠ 0)

/-- The events a `notify` action would record as accepted. -/
def step_accepted (s : present_vblank_scheduler) (a : sched_action) :
    List vblank_event :=
  match a with
  | .notify cne _ =>
      if event_accepted s cne then [{ msc := cne.msc, ust := cne.ust }] else []
  | _ => []

/-- Cumulative result of running a list of actions: final state,
consumer-callback invocations in order, accepted events in order, and
`x_request_vblank_event` calls in order. -/
structure trace_output where
  sched : present_vblank_scheduler
  callbacks : List vblank_event
  accepted : List vblank_event
  requests : List vblank_request
deriving DecidableEq, Repr

/-- Run a list of actions from a state; stops at the first `assert`
failure. -/
def sched_run (s : present_vblank_scheduler) :
    List sched_action → Except assert_kind trace_output
  | [] => .ok { sched := s, callbacks := [], accepted := [], requests := [] }
  | a :: rest =>
    match sched_step s a with
    | .error k => .error k
    | .ok o =>
      match sched_run o.sched rest with
      | .error k => .error k
      | .ok t =>
          .ok { sched := t.sched,
                callbacks := o.callbacks ++ t.callbacks,
                accepted := step_accepted s a ++ t.accepted,
                requests := o.requests ++ t.requests }

/-- Guard of the usage discipline: a `notify` may only be taken in a state
whose timer is inactive; other actions are unrestricted. -/
def idle_guard (s : present_vblank_scheduler) (a : sched_action) : Bool :=
  match a with
  | .notify _ _ => s.callback_timer.isNone
  | _ => true

/-- The usage discipline of spec sections 4.2/5: a new notification is only
processed after the prior cycle's timer, if any, has fired.  Holds of an
action list when every `notify` is taken in a state whose timer is
inactive (checked along the run; once the run stops at an assert failure
nothing further is constrained). -/
def notify_only_when_idle (s : present_vblank_scheduler) :
    List sched_action → Bool
  | [] => true
  | a :: rest =>
    idle_guard s a &&
    (match sched_step s a with
     | .error _ => true
     | .ok o => notify_only_when_idle o.sched rest)

/-- Action lists that use only the operations defined in `src/vblank.h`
(no external mutation of `vblank_event_requested`). -/
def module_only : List sched_action → Bool
  | [] => true
  | a :: rest =>
    (match a with
     | .ext_request => false
     | _ => true) && module_only rest

/-- Ordering of callback/accepted events by `msc`. -/
def msc_lt (a b : vblank_event) : Prop := a.msc < b.msc

/-- Invariant tying a scheduler state to the accepted events and callback
invocations seen so far: accepted events have strictly increasing `msc`,
the most recently accepted event is recorded in `last_msc`/`last_ust`, and
the callbacks are exactly the accepted events except that the latest one is
still pending while the timer is armed. -/
def cycle_inv (s : present_vblank_scheduler)
    (accepted callbacks : List vblank_event) : Prop :=
  List.Chain' msc_lt accepted ∧
  (accepted ≠ [] →
     accepted.getLast? = some { msc := s.last_msc, ust := s.last_ust }) ∧
  (s.callback_timer = none → callbacks = accepted) ∧
  (s.callback_timer ≠ none →
     accepted = callbacks ++ [{ msc := s.last_msc, ust := s.last_ust }])

/-!
Claim theorems.
-/

/-- C1: a refresh-counter-completion notification with `msc <= last_msc` or
`ust == 0` leaves the whole scheduler state (in particular `last_msc`,
`last_ust` and `vblank_event_requested`) unchanged, invokes no consumer
callback, and issues exactly one retry request for `target_msc =
last_msc + 1` on the window carried by the event, then returns.  (The
handler's `assert(sched->vblank_event_requested)` runs before the validity
check, so the claim is about handler calls whose precondition holds;
`last_msc + 1 < 2 ^ 64` keeps the uint64 addition exact.) -/
theorem handle_invalid_event_retries
    (s : present_vblank_scheduler) (cne : xcb_present_complete_notify_event)
    (now_us : Nat)
    (hkind : cne.kind = XCB_PRESENT_COMPLETE_KIND_NOTIFY_MSC)
    (hreq : s.vblank_event_requested = true)
    (hinv : cne.msc ≤ s.last_msc ∨ cne.ust = 0)
    (hlt : s.last_msc + 1 < u64_size) :
    handle_present_complete_notify (.present s) cne now_us =
      .ok { sched := s, callbacks := [],
            requests := [{ window := cne.window,
                           target_msc := s.last_msc + 1 }] } := by
  simp only [handle_present_complete_notify]
  rw [if_neg (by simp [hkind]), if_neg (by simp [hreq]), if_pos hinv,
    Nat.mod_eq_of_lt hlt]

/-- Witness for C1 at the spec's stale-event example: `last_msc = 100`,
notification `{msc: 100, ust: 5}`. -/
theorem handle_invalid_event_retries_witness :
    handle_present_complete_notify
        (.present { last_msc := 100, last_ust := 4000000,
                    callback_timer := none, vblank_event_requested := true })
        { kind := 1, msc := 100, ust := 5, window := 7 } 123456 =
      .ok { sched := { last_msc := 100, last_ust := 4000000,
                       callback_timer := none, vblank_event_requested := true },
            callbacks := [],
            requests := [{ window := 7, target_msc := 101 }] } :=
  handle_invalid_event_retries _ _ _ rfl rfl (Or.inl (by decide)) (by decide)

/-- C2: a valid notification (right kind, `msc > last_msc`, `ust != 0`)
whose `ust` lies strictly in the past (`now > ust`) clears
`vblank_event_requested`, sets `last_msc = msc` and `last_ust = ust`,
invokes the consumer callback synchronously within the same handler call
with exactly the event `{msc, ust}`, issues no request, and leaves the
timer unchanged (arms none). -/
theorem handle_valid_late_fires_synchronously
    (s : present_vblank_scheduler) (cne : xcb_present_complete_notify_event)
    (now_us : Nat)
    (hkind : cne.kind = XCB_PRESENT_COMPLETE_KIND_NOTIFY_MSC)
    (hreq : s.vblank_event_requested = true)
    (hmsc : s.last_msc < cne.msc) (hust : cne.ust ≠ 0)
    (hnow : cne.ust < now_us) :
    handle_present_complete_notify (.present s) cne now_us =
      .ok { sched := { s with vblank_event_requested := false,
                              last_ust := cne.ust, last_msc := cne.msc },
            callbacks := [{ msc := cne.msc, ust := cne.ust }],
            requests := [] } := by
  simp only [handle_present_complete_notify]
  rw [if_neg (by simp [hkind]), if_neg (by simp [hreq]),
    if_neg (by simp [hust, Nat.not_le.2 hmsc]), if_pos hnow]

/-- Witness for C2 at the spec's immediate-fire example: `last_msc = 100`,
notification `{msc: 101, ust: 5000000}`, `now = 5000500`. -/
theorem handle_valid_late_fires_synchronously_witness :
    handle_present_complete_notify
        (.present { last_msc := 100, last_ust := 4000000,
                    callback_timer := none, vblank_event_requested := true })
        { kind := 1, msc := 101, ust := 5000000, window := 7 } 5000500 =
      .ok { sched := { last_msc := 101, last_ust := 5000000,
                       callback_timer := none, vblank_event_requested := false },
            callbacks := [{ msc := 101, ust := 5000000 }],
            requests := [] } :=
  handle_valid_late_fires_synchronously _ _ _ rfl rfl (by decide) (by decide)
    (by decide)

/-- C3: a valid notification whose `ust` has not yet passed (`now <= ust`)
invokes no consumer callback synchronously and arms the one-shot timer for
`ust - now` microseconds; expiry of that timer invokes the consumer
callback exactly once with the `{msc, ust}` of the notification that armed
it (the expiry callback reads `last_msc`/`last_ust`, which at that point
are exactly the values captured at arming time), and afterwards the timer
is inert, so a further expiry delivers nothing. -/
theorem handle_valid_early_arms_timer
    (s : present_vblank_scheduler) (cne : xcb_present_complete_notify_event)
    (now_us : Nat)
    (hkind : cne.kind = XCB_PRESENT_COMPLETE_KIND_NOTIFY_MSC)
    (hreq : s.vblank_event_requested = true)
    (hmsc : s.last_msc < cne.msc) (hust : cne.ust ≠ 0)
    (hnow : now_us ≤ cne.ust) (htimer : s.callback_timer = none) :
    handle_present_complete_notify (.present s) cne now_us =
      .ok { sched := { s with vblank_event_requested := false,
                              last_ust := cne.ust, last_msc := cne.msc,
                              callback_timer := some (cne.ust - now_us) },
            callbacks := [], requests := [] } ∧
    present_vblank_callback
        { s with vblank_event_requested := false,
                 last_ust := cne.ust, last_msc := cne.msc,
                 callback_timer := some (cne.ust - now_us) } =
      ({ s with vblank_event_requested := false,
                last_ust := cne.ust, last_msc := cne.msc,
                callback_timer := none },
       [{ msc := cne.msc, ust := cne.ust }]) ∧
    sched_step { s with vblank_event_requested := false,
                        last_ust := cne.ust, last_msc := cne.msc,
                        callback_timer := none } .timer_fire =
      .ok { sched := { s with vblank_event_requested := false,
                              last_ust := cne.ust, last_msc := cne.msc,
                              callback_timer := none },
            callbacks := [], requests := [] } := by
  refine ⟨?_, rfl, rfl⟩
  simp only [handle_present_complete_notify]
  rw [if_neg (by simp [hkind]), if_neg (by simp [hreq]),
    if_neg (by simp [hust, Nat.not_le.2 hmsc]), if_neg (by simpa using hnow)]
  simp [htimer]

/-- Witness for C3 at the spec's delayed-fire example: `now = 4999000`,
`ust = 5000000`, so the timer is armed for 1000 microseconds. -/
theorem handle_valid_early_arms_timer_witness :
    (handle_present_complete_notify
        (.present { last_msc := 100, last_ust := 4000000,
                    callback_timer := none, vblank_event_requested := true })
        { kind := 1, msc := 101, ust := 5000000, window := 7 } 4999000 =
      .ok { sched := { last_msc := 101, last_ust := 5000000,
                       callback_timer := some 1000,
                       vblank_event_requested := false },
            callbacks := [], requests := [] }) ∧
    (present_vblank_callback
        { last_msc := 101, last_ust := 5000000, callback_timer := some 1000,
          vblank_event_requested := false } =
      ({ last_msc := 101, last_ust := 5000000, callback_timer := none,
         vblank_event_requested := false },
       [{ msc := 101, ust := 5000000 }])) ∧
    (sched_step { last_msc := 101, last_ust := 5000000, callback_timer := none,
                  vblank_event_requested := false } .timer_fire =
      .ok { sched := { last_msc := 101, last_ust := 5000000,
                       callback_timer := none,
                       vblank_event_requested := false },
            callbacks := [], requests := [] }) :=
  handle_valid_early_arms_timer _ _ _ rfl rfl (by decide) (by decide)
    (by decide) rfl

/-- C5: with `last_msc = N`, `schedule` on the Present-based scheduler
issues exactly one request for `target_msc = N + 1` and returns `true`
(`N + 1 < 2 ^ 64` keeps the uint64 addition exact); `schedule` on the
Polling-based (SGI video sync) scheduler returns `false` and issues no
request. -/
theorem schedule_requests_next_msc
    (s : present_vblank_scheduler) (window : Nat)
    (hlt : s.last_msc + 1 < u64_size) :
    vblank_scheduler_schedule (.present s) window =
      (true, [{ window := window, target_msc := s.last_msc + 1 }]) ∧
    vblank_scheduler_schedule .sgi_video_vsync window = (false, []) := by
  constructor
  · simp only [vblank_scheduler_schedule, present_vblank_scheduler_schedule,
      Nat.mod_eq_of_lt hlt]
  · rfl

/-- Witness for C5 at `last_msc = 3`, window 9. -/
theorem schedule_requests_next_msc_witness :
    (vblank_scheduler_schedule
        (.present { last_msc := 3, last_ust := 50, callback_timer := none,
                    vblank_event_requested := false }) 9 =
      (true, [{ window := 9, target_msc := 4 }])) ∧
    (vblank_scheduler_schedule .sgi_video_vsync 9 = (false, [])) :=
  schedule_requests_next_msc _ 9 (by decide)

/-- C6: the header documents that `vblank_scheduler_schedule` "will do
nothing and return false" when an event is already scheduled for the
current vblank, but the Present-based implementation never checks
`vblank_event_requested`: with the flag set it still issues a request and
returns `true`.  This theorem evaluates the code at such a state,
exhibiting the divergence from the documented contract. -/
theorem schedule_ignores_pending_request :
    vblank_scheduler_schedule
        (.present { last_msc := 5, last_ust := 100, callback_timer := none,
                    vblank_event_requested := true }) 7 =
      (true, [{ window := 7, target_msc := 6 }]) := by
  decide

/-- C8: a notification whose kind is not refresh-counter completion is
ignored: the state (including the timer) is returned unchanged, no
callback is invoked, and no request is issued. -/
theorem handle_wrong_kind_ignored
    (s : present_vblank_scheduler) (cne : xcb_present_complete_notify_event)
    (now_us : Nat)
    (hkind : cne.kind ≠ XCB_PRESENT_COMPLETE_KIND_NOTIFY_MSC) :
    handle_present_complete_notify (.present s) cne now_us =
      .ok { sched := s, callbacks := [], requests := [] } := by
  simp only [handle_present_complete_notify]
  rw [if_pos hkind]

/-- Witness for C8 at kind 0 (`PresentCompleteKindPixmap`). -/
theorem handle_wrong_kind_ignored_witness :
    handle_present_complete_notify
        (.present { last_msc := 100, last_ust := 4000000,
                    callback_timer := some 10, vblank_event_requested := true })
        { kind := 0, msc := 101, ust := 5000000, window := 7 } 42 =
      .ok { sched := { last_msc := 100, last_ust := 4000000,
                       callback_timer := some 10,
                       vblank_event_requested := true },
            callbacks := [], requests := [] } :=
  handle_wrong_kind_ignored _ _ _ (by decide)

/-- Helper: a step only fails the timer-active assert when the action is a
notification taken with the timer already armed. -/
theorem sched_step_timer_error {s : present_vblank_scheduler}
    {a : sched_action}
    (h : sched_step s a = .error .timer_active) :
    s.callback_timer.isNone = false := by
  cases a with
  | ext_request => simp [sched_step] at h
  | schedule window => simp [sched_step] at h
  | timer_fire =>
      cases ht : s.callback_timer <;> simp [sched_step, ht] at h
  | notify cne now_us =>
      simp only [sched_step, handle_present_complete_notify] at h
      split at h
      · simp at h
      · split at h
        · simp at h
        · split at h
          · simp at h
          · split at h
            · simp at h
            · split at h
              · rename_i hsome
                simp only [Option.isSome_iff_exists] at hsome
                obtain ⟨d, hd⟩ := hsome
                simp [hd]
              · simp at h

/-- Helper: actions other than `notify` never fail an assert. -/
theorem sched_step_error_is_notify {s : present_vblank_scheduler}
    {a : sched_action} {k : assert_kind}
    (h : sched_step s a = .error k) :
    ∃ cne now_us, a = sched_action.notify cne now_us := by
  cases a with
  | ext_request => simp [sched_step] at h
  | schedule window => simp [sched_step] at h
  | timer_fire => cases ht : s.callback_timer <;> simp [sched_step, ht] at h
  | notify cne now_us => exact ⟨cne, now_us, rfl⟩

/-- C7: under the usage discipline (a new notification is only processed
after the prior cycle's timer, if any, has fired), a run never fails the
`assert(!ev_is_active(&sched->callback_timer))` in the timer-arming branch:
the scheduler never attempts to have two armed timers simultaneously. -/
theorem no_concurrent_timers (s : present_vblank_scheduler)
    (acts : List sched_action)
    (hvalid : notify_only_when_idle s acts = true) :
    sched_run s acts ≠ .error .timer_active := by
  induction acts generalizing s with
  | nil => simp [sched_run]
  | cons a rest ih =>
      simp only [notify_only_when_idle, Bool.and_eq_true] at hvalid
      obtain ⟨hguard, hrest⟩ := hvalid
      cases hstep : sched_step s a with
      | error k =>
          simp only [sched_run, hstep]
          intro hcontra
          have hk : k = .timer_active := by
            injection hcontra
          subst hk
          obtain ⟨cne, now_us, rfl⟩ := sched_step_error_is_notify hstep
          have := sched_step_timer_error hstep
          simp [idle_guard, this] at hguard
      | ok o =>
          rw [hstep] at hrest
          simp only at hrest
          cases hrun : sched_run o.sched rest with
          | error k =>
              simp only [sched_run, hstep, hrun]
              intro hcontra
              have hk : k = .timer_active := by injection hcontra
              subst hk
              exact ih o.sched hrest hrun
          | ok t => simp [sched_run, hstep, hrun]

/-- Witness for C7: a run that arms a timer, lets it fire, and accepts a
second notification never trips the timer assert. -/
theorem no_concurrent_timers_witness :
    sched_run present_vblank_scheduler_new
        [.ext_request,
         .notify { kind := 1, msc := 1, ust := 100, window := 3 } 50,
         .timer_fire,
         .ext_request,
         .notify { kind := 1, msc := 2, ust := 300, window := 3 } 400] ≠
      .error .timer_active :=
  no_concurrent_timers _ _ (by decide)

/-- Helper: no module action (anything but `ext_request`) turns
`vblank_event_requested` on. -/
theorem sched_step_flag_false {s : present_vblank_scheduler}
    {a : sched_action} {o : handle_output}
    (ha : a ≠ sched_action.ext_request)
    (hf : s.vblank_event_requested = false)
    (h : sched_step s a = .ok o) :
    o.sched.vblank_event_requested = false := by
  cases a with
  | ext_request => exact absurd rfl ha
  | schedule window =>
      simp only [sched_step, Except.ok.injEq] at h
      rw [← h]
      exact hf
  | timer_fire =>
      cases ht : s.callback_timer with
      | none =>
          simp only [sched_step, ht, Except.ok.injEq] at h
          rw [← h]
          exact hf
      | some d =>
          simp only [sched_step, ht, present_vblank_callback,
            Except.ok.injEq] at h
          rw [← h]
          exact hf
  | notify cne now_us =>
      simp only [sched_step, handle_present_complete_notify] at h
      rw [if_pos hf] at h
      split at h
      · injection h with h
        rw [← h]
        exact hf
      · exact absurd h (by simp)

/-- Helper: module-only runs from a state with the flag off end with the
flag off. -/
theorem sched_run_flag_false :
    ∀ (acts : List sched_action) (s : present_vblank_scheduler)
      (t : trace_output), module_only acts = true →
      s.vblank_event_requested = false →
      sched_run s acts = .ok t →
      t.sched.vblank_event_requested = false := by
  intro acts
  induction acts with
  | nil =>
      intro s t _ hf hrun
      simp only [sched_run, Except.ok.injEq] at hrun
      rw [← hrun]
      exact hf
  | cons a rest ih =>
      intro s t hmod hf hrun
      simp only [module_only, Bool.and_eq_true] at hmod
      obtain ⟨hmoda, hmodrest⟩ := hmod
      have ha : a ≠ sched_action.ext_request := by
        intro hcontra
        rw [hcontra] at hmoda
        simp at hmoda
      cases hstep : sched_step s a with
      | error k => simp [sched_run, hstep] at hrun
      | ok o =>
          cases hrest : sched_run o.sched rest with
          | error k => simp [sched_run, hstep, hrest] at hrun
          | ok t' =>
              simp only [sched_run, hstep, hrest, Except.ok.injEq] at hrun
              rw [← hrun]
              exact ih o.sched t' hmodrest (sched_step_flag_false ha hf hstep)
                hrest

/-- C9: `vblank_event_requested` is zero-initialized at construction, no
operation defined in the module ever sets it to `true` (module-only runs
from a flag-off state end flag-off), yet `handle_present_complete_notify`
asserts it is `true` for every refresh-counter-completion notification —
from a flag-off state any such notification fails the assert.  The
assertion can therefore only hold if code outside the module sets the
flag. -/
theorem module_never_sets_request_flag :
    present_vblank_scheduler_new.vblank_event_requested = false ∧
    (∀ (acts : List sched_action) (s : present_vblank_scheduler)
        (t : trace_output), module_only acts = true →
        s.vblank_event_requested = false →
        sched_run s acts = .ok t →
        t.sched.vblank_event_requested = false) ∧
    (∀ (s : present_vblank_scheduler)
        (cne : xcb_present_complete_notify_event) (now_us : Nat),
        s.vblank_event_requested = false →
        cne.kind = XCB_PRESENT_COMPLETE_KIND_NOTIFY_MSC →
        handle_present_complete_notify (.present s) cne now_us =
          .error .event_requested) := by
  refine ⟨rfl, sched_run_flag_false, ?_⟩
  intro s cne now_us hf hkind
  simp only [handle_present_complete_notify]
  rw [if_neg (by simp [hkind]), if_pos hf]

/-- Witness for C9: a module-only run (a `schedule` and a `timer_fire`)
from a fresh scheduler leaves the flag off, and a refresh-kind
notification then fails the `vblank_event_requested` assert. -/
theorem module_never_sets_request_flag_witness :
    present_vblank_scheduler_new.vblank_event_requested = false ∧
    ({ sched := present_vblank_scheduler_new, callbacks := [], accepted := [],
       requests := [{ window := 3, target_msc := 1 }] } :
        trace_output).sched.vblank_event_requested = false ∧
    handle_present_complete_notify (.present present_vblank_scheduler_new)
        { kind := 1, msc := 5, ust := 9, window := 2 } 0 =
      .error .event_requested :=
  ⟨module_never_sets_request_flag.1,
   module_never_sets_request_flag.2.1 [.schedule 3, .timer_fire]
     present_vblank_scheduler_new _ (by decide) rfl rfl,
   module_never_sets_request_flag.2.2 _ _ 0 rfl rfl⟩

/-- Helper: steps preserve "an armed timer implies a nonzero `last_msc`"
and never emit a callback event with `msc = 0`. -/
theorem sched_step_msc_ne_zero {s : present_vblank_scheduler}
    {a : sched_action} {o : handle_output}
    (hs : s.callback_timer.isSome = true → s.last_msc ≠ 0)
    (h : sched_step s a = .ok o) :
    (o.sched.callback_timer.isSome = true → o.sched.last_msc ≠ 0) ∧
    (∀ e ∈ o.callbacks, e.msc ≠ 0) := by
  cases a with
  | ext_request =>
      simp only [sched_step, Except.ok.injEq] at h
      rw [← h]
      exact ⟨hs, by simp⟩
  | schedule window =>
      simp only [sched_step, Except.ok.injEq] at h
      rw [← h]
      exact ⟨hs, by simp⟩
  | timer_fire =>
      cases ht : s.callback_timer with
      | none =>
          simp only [sched_step, ht, Except.ok.injEq] at h
          rw [← h]
          refine ⟨hs, by simp⟩
      | some d =>
          simp only [sched_step, ht, present_vblank_callback,
            Except.ok.injEq] at h
          rw [← h]
          refine ⟨by simp, ?_⟩
          intro e he
          simp only [List.mem_singleton] at he
          rw [he]
          exact hs (by rw [ht]; rfl)
  | notify cne now_us =>
      simp only [sched_step, handle_present_complete_notify] at h
      split at h
      · injection h with h
        rw [← h]
        exact ⟨hs, by simp⟩
      · split at h
        · exact absurd h (by simp)
        · split at h
          · injection h with h
            rw [← h]
            exact ⟨hs, by simp⟩
          · rename_i hvalid
            have hlt : s.last_msc < cne.msc := by
              rcases Nat.lt_or_ge s.last_msc cne.msc with hc | hc
              · exact hc
              · exact absurd (Or.inl hc) hvalid
            have hne : cne.msc ≠ 0 :=
              Nat.pos_iff_ne_zero.mp (Nat.lt_of_le_of_lt (Nat.zero_le _) hlt)
            split at h
            · injection h with h
              rw [← h]
              refine ⟨fun _ => hne, ?_⟩
              intro e he
              simp only [List.mem_singleton] at he
              rw [he]
              exact hne
            · split at h
              · exact absurd h (by simp)
              · injection h with h
                rw [← h]
                exact ⟨fun _ => hne, by simp⟩

/-- Helper: along any successful run from a state whose armed timer (if
any) was set by an accepted event, every callback event has nonzero
`msc`. -/
theorem sched_run_msc_ne_zero :
    ∀ (acts : List sched_action) (s : present_vblank_scheduler)
      (t : trace_output),
      (s.callback_timer.isSome = true → s.last_msc ≠ 0) →
      sched_run s acts = .ok t →
      ∀ e ∈ t.callbacks, e.msc ≠ 0 := by
  intro acts
  induction acts with
  | nil =>
      intro s t _ hrun
      simp only [sched_run, Except.ok.injEq] at hrun
      rw [← hrun]
      simp
  | cons a rest ih =>
      intro s t hs hrun
      cases hstep : sched_step s a with
      | error k => simp [sched_run, hstep] at hrun
      | ok o =>
          cases hrest : sched_run o.sched rest with
          | error k => simp [sched_run, hstep, hrest] at hrun
          | ok t' =>
              simp only [sched_run, hstep, hrest, Except.ok.injEq] at hrun
              rw [← hrun]
              intro e he
              simp only [List.mem_append] at he
              rcases he with he | he
              · exact (sched_step_msc_ne_zero hs hstep).2 e he
              · exact ih o.sched t' (sched_step_msc_ne_zero hs hstep).1
                  hrest e he

/-- C10: `last_msc` is an unsigned counter, so a notification with
`msc = 0` always satisfies `msc <= last_msc` and is rejected exactly like
any invalid event (state unchanged, no callback, one retry request); and
over every run from a fresh scheduler the consumer callback is never
invoked with an event whose `msc` is 0. -/
theorem msc_zero_always_rejected :
    (∀ (s : present_vblank_scheduler)
        (cne : xcb_present_complete_notify_event) (now_us : Nat),
        cne.kind = XCB_PRESENT_COMPLETE_KIND_NOTIFY_MSC →
        s.vblank_event_requested = true → cne.msc = 0 →
        handle_present_complete_notify (.present s) cne now_us =
          .ok { sched := s, callbacks := [],
                requests := [{ window := cne.window,
                               target_msc := (s.last_msc + 1) % u64_size }] }) ∧
    (∀ (acts : List sched_action) (t : trace_output),
        sched_run present_vblank_scheduler_new acts = .ok t →
        ∀ e ∈ t.callbacks, e.msc ≠ 0) := by
  constructor
  · intro s cne now_us hkind hreq hmsc
    simp only [handle_present_complete_notify]
    rw [if_neg (by simp [hkind]), if_neg (by simp [hreq]),
      if_pos (Or.inl (hmsc ▸ Nat.zero_le _))]
  · intro acts t hrun
    exact sched_run_msc_ne_zero acts present_vblank_scheduler_new t
      (by intro hcontra; simp [present_vblank_scheduler_new] at hcontra) hrun

/-- Witness for C10: a zero-`msc` notification is rejected with a retry,
and the callback the run below does produce has nonzero `msc`. -/
theorem msc_zero_always_rejected_witness :
    (handle_present_complete_notify
        (.present { last_msc := 5, last_ust := 6, callback_timer := none,
                    vblank_event_requested := true })
        { kind := 1, msc := 0, ust := 9, window := 2 } 7 =
      .ok { sched := { last_msc := 5, last_ust := 6, callback_timer := none,
                       vblank_event_requested := true },
            callbacks := [],
            requests := [{ window := 2, target_msc := 6 }] }) ∧
    (({ msc := 1, ust := 100 } : vblank_event).msc ≠ 0) :=
  ⟨msc_zero_always_rejected.1
      { last_msc := 5, last_ust := 6, callback_timer := none,
        vblank_event_requested := true }
      { kind := 1, msc := 0, ust := 9, window := 2 } 7 rfl rfl rfl,
   msc_zero_always_rejected.2
      [.ext_request, .notify { kind := 1, msc := 1, ust := 100, window := 3 } 200]
      { sched := { last_msc := 1, last_ust := 100, callback_timer := none,
                   vblank_event_requested := false },
        callbacks := [{ msc := 1, ust := 100 }],
        accepted := [{ msc := 1, ust := 100 }], requests := [] }
      rfl { msc := 1, ust := 100 } (by simp)⟩

/-- Helper: a notification of the wrong kind is never accepted. -/
theorem event_accepted_false_of_kind {s : present_vblank_scheduler}
    {cne : xcb_present_complete_notify_event}
    (hk : ¬cne.kind = XCB_PRESENT_COMPLETE_KIND_NOTIFY_MSC) :
    event_accepted s cne = false := by
  simp [event_accepted, hk]

/-- Helper: a stale or zero-`ust` notification is never accepted. -/
theorem event_accepted_false_of_invalid {s : present_vblank_scheduler}
    {cne : xcb_present_complete_notify_event}
    (hbad : cne.msc ≤ s.last_msc ∨ cne.ust = 0) :
    event_accepted s cne = false := by
  rcases hbad with hb | hb
  · simp [event_accepted, Nat.not_lt.2 hb]
  · simp [event_accepted, hb]

/-- Helper: a right-kind, fresh, nonzero-`ust` notification is accepted. -/
theorem event_accepted_true {s : present_vblank_scheduler}
    {cne : xcb_present_complete_notify_event}
    (hk : cne.kind = XCB_PRESENT_COMPLETE_KIND_NOTIFY_MSC)
    (hvalid : ¬(cne.msc ≤ s.last_msc ∨ cne.ust = 0)) :
    event_accepted s cne = true := by
  have h1 : s.last_msc < cne.msc :=
    Nat.not_le.mp (fun hle => hvalid (Or.inl hle))
  have h2 : cne.ust ≠ 0 := fun h0 => hvalid (Or.inr h0)
  simp [event_accepted, hk, h1, h2]

/-- Helper: each step taken under the usage discipline preserves the
accepted/callback invariant. -/
theorem sched_step_cycle_inv {s : present_vblank_scheduler}
    {a : sched_action} {o : handle_output}
    {acc cb : List vblank_event}
    (hguard : idle_guard s a = true)
    (hinv : cycle_inv s acc cb)
    (h : sched_step s a = .ok o) :
    cycle_inv o.sched (acc ++ step_accepted s a) (cb ++ o.callbacks) := by
  obtain ⟨hchain, hlast, hidle, harmed⟩ := hinv
  cases a with
  | ext_request =>
      simp only [sched_step, Except.ok.injEq] at h
      rw [← h]
      simp only [step_accepted, List.append_nil]
      exact ⟨hchain, hlast, hidle, harmed⟩
  | schedule window =>
      simp only [sched_step, Except.ok.injEq] at h
      rw [← h]
      simp only [step_accepted, List.append_nil]
      exact ⟨hchain, hlast, hidle, harmed⟩
  | timer_fire =>
      cases ht : s.callback_timer with
      | none =>
          simp only [sched_step, ht, Except.ok.injEq] at h
          rw [← h]
          simp only [step_accepted, List.append_nil]
          exact ⟨hchain, hlast, hidle, harmed⟩
      | some d =>
          simp only [sched_step, ht, present_vblank_callback,
            Except.ok.injEq] at h
          rw [← h]
          simp only [step_accepted, List.append_nil]
          have hacc : acc =
              cb ++ [{ msc := s.last_msc, ust := s.last_ust }] :=
            harmed (by rw [ht]; simp)
          exact ⟨hchain, hlast, fun _ => hacc.symm,
            fun hne => absurd rfl hne⟩
  | notify cne now_us =>
      have hT : s.callback_timer = none :=
        Option.isNone_iff_eq_none.mp (by simpa [idle_guard] using hguard)
      have hcb : cb = acc := hidle hT
      simp only [sched_step, handle_present_complete_notify] at h
      split at h
      · rename_i hk
        injection h with h
        rw [← h]
        simp only [step_accepted, event_accepted_false_of_kind hk,
          Bool.false_eq_true, if_false, List.append_nil]
        exact ⟨hchain, hlast, hidle, harmed⟩
      · split at h
        · exact absurd h (by simp)
        · split at h
          · rename_i hbad
            injection h with h
            rw [← h]
            simp only [step_accepted, event_accepted_false_of_invalid hbad,
              Bool.false_eq_true, if_false, List.append_nil]
            exact ⟨hchain, hlast, hidle, harmed⟩
          · rename_i hk' hflag' hbad'
            have hk : cne.kind = XCB_PRESENT_COMPLETE_KIND_NOTIFY_MSC :=
              not_not.mp hk'
            have hlt : s.last_msc < cne.msc :=
              Nat.not_le.mp (fun hle => hbad' (Or.inl hle))
            have hstep_acc : step_accepted s (.notify cne now_us) =
                [{ msc := cne.msc, ust := cne.ust }] := by
              simp only [step_accepted, event_accepted_true hk hbad', if_true]
            have hbound : ∀ x ∈ acc.getLast?,
                ∀ y ∈ ([{ msc := cne.msc, ust := cne.ust }] :
                    List vblank_event).head?, msc_lt x y := by
              intro x hx y hy
              simp only [List.head?_cons, Option.mem_def,
                Option.some.injEq] at hy
              cases hacc0 : acc with
              | nil => rw [hacc0] at hx; simp at hx
              | cons a0 l0 =>
                  rw [hlast (by rw [hacc0]; simp)] at hx
                  simp only [Option.mem_def, Option.some.injEq] at hx
                  rw [← hx, ← hy]
                  exact hlt
            have hchain' :
                List.Chain' msc_lt
                  (acc ++ [{ msc := cne.msc, ust := cne.ust }]) :=
              List.chain'_append.mpr
                ⟨hchain, List.chain'_singleton _, hbound⟩
            split at h
            · injection h with h
              rw [← h, hstep_acc]
              refine ⟨hchain', ?_, ?_, ?_⟩
              · intro _
                exact List.getLast?_concat _
              · intro _
                rw [hcb]
              · intro hne
                exact absurd hT hne
            · split at h
              · exact absurd h (by simp)
              · injection h with h
                rw [← h, hstep_acc]
                simp only [List.append_nil]
                refine ⟨hchain', ?_, ?_, ?_⟩
                · intro _
                  exact List.getLast?_concat _
                · intro hx
                  exact absurd hx (by simp)
                · intro _
                  rw [hcb]

/-- Helper: the accepted/callback invariant holds along every successful
run taken under the usage discipline. -/
theorem sched_run_cycle_inv :
    ∀ (acts : List sched_action) (s : present_vblank_scheduler)
      (acc cb : List vblank_event) (t : trace_output),
      cycle_inv s acc cb →
      notify_only_when_idle s acts = true →
      sched_run s acts = .ok t →
      cycle_inv t.sched (acc ++ t.accepted) (cb ++ t.callbacks) := by
  intro acts
  induction acts with
  | nil =>
      intro s acc cb t hinv _ hrun
      simp only [sched_run, Except.ok.injEq] at hrun
      rw [← hrun]
      simpa using hinv
  | cons a rest ih =>
      intro s acc cb t hinv hvalid hrun
      simp only [notify_only_when_idle, Bool.and_eq_true] at hvalid
      obtain ⟨hguard, hrest⟩ := hvalid
      cases hstep : sched_step s a with
      | error k => simp [sched_run, hstep] at hrun
      | ok o =>
          rw [hstep] at hrest
          simp only at hrest
          cases hrun' : sched_run o.sched rest with
          | error k => simp [sched_run, hstep, hrun'] at hrun
          | ok t' =>
              simp only [sched_run, hstep, hrun', Except.ok.injEq] at hrun
              rw [← hrun]
              have hstepinv := sched_step_cycle_inv hguard hinv hstep
              have := ih o.sched (acc ++ step_accepted s a)
                (cb ++ o.callbacks) t' hstepinv hrest hrun'
              simpa [List.append_assoc] using this

/-- C4: over every run from a fresh scheduler under the usage discipline,
the accepted events have strictly increasing `msc`; `last_msc`/`last_ust`
always equal the `msc`/`ust` of the most recently accepted event; consumer
callbacks are invoked in strictly increasing `msc` order, one per accepted
event (the callbacks are exactly the accepted events, except that the most
recent one is still pending while its compensation timer is armed). -/
theorem accepted_events_monotone
    (acts : List sched_action) (t : trace_output)
    (hvalid : notify_only_when_idle present_vblank_scheduler_new acts = true)
    (hrun : sched_run present_vblank_scheduler_new acts = .ok t) :
    List.Chain' msc_lt t.accepted ∧
    (t.accepted ≠ [] →
       t.accepted.getLast? =
         some { msc := t.sched.last_msc, ust := t.sched.last_ust }) ∧
    List.Chain' msc_lt t.callbacks ∧
    (t.callbacks = t.accepted ∨
       t.accepted =
         t.callbacks ++
           [{ msc := t.sched.last_msc, ust := t.sched.last_ust }]) := by
  have hinv0 : cycle_inv present_vblank_scheduler_new [] [] :=
    ⟨List.chain'_nil, fun hc => absurd rfl hc, fun _ => rfl,
     fun hc => absurd rfl hc⟩
  have H := sched_run_cycle_inv acts present_vblank_scheduler_new [] [] t
    hinv0 hvalid hrun
  simp only [List.nil_append] at H
  obtain ⟨hchain, hlast, hidle, harmed⟩ := H
  refine ⟨hchain, hlast, ?_, ?_⟩
  · by_cases ht : t.sched.callback_timer = none
    · rw [hidle ht]
      exact hchain
    · have hacc := harmed ht
      rw [hacc] at hchain
      exact (List.chain'_append.mp hchain).1
  · by_cases ht : t.sched.callback_timer = none
    · exact Or.inl (hidle ht)
    · exact Or.inr (harmed ht)

/-- Witness for C4: a run with one immediate-fire cycle and one
timer-compensated cycle. -/
theorem accepted_events_monotone_witness :
    List.Chain' msc_lt
      [({ msc := 1, ust := 100 } : vblank_event), { msc := 2, ust := 300 }] ∧
    (([({ msc := 1, ust := 100 } : vblank_event),
        { msc := 2, ust := 300 }]) ≠ [] →
      ([({ msc := 1, ust := 100 } : vblank_event),
        { msc := 2, ust := 300 }]).getLast? =
        some { msc := 2, ust := 300 }) ∧
    List.Chain' msc_lt
      [({ msc := 1, ust := 100 } : vblank_event), { msc := 2, ust := 300 }] ∧
    (([({ msc := 1, ust := 100 } : vblank_event), { msc := 2, ust := 300 }] =
        [({ msc := 1, ust := 100 } : vblank_event), { msc := 2, ust := 300 }]) ∨
      ([({ msc := 1, ust := 100 } : vblank_event), { msc := 2, ust := 300 }] =
        [({ msc := 1, ust := 100 } : vblank_event), { msc := 2, ust := 300 }] ++
          [{ msc := 2, ust := 300 }])) :=
  accepted_events_monotone
    [.ext_request, .notify { kind := 1, msc := 1, ust := 100, window := 3 } 200,
     .ext_request, .notify { kind := 1, msc := 2, ust := 300, window := 3 } 250,
     .timer_fire]
    { sched := { last_msc := 2, last_ust := 300, callback_timer := none,
                 vblank_event_requested := false },
      callbacks := [{ msc := 1, ust := 100 }, { msc := 2, ust := 300 }],
      accepted := [{ msc := 1, ust := 100 }, { msc := 2, ust := 300 }],
      requests := [] }
    (by decide) rfl
